import Mathlib

/-!
Verification of the verified-boot structure verifier
(`firmware/lib/vboot_common.c`) against its specification.

The C code is shallowly embedded: machine `uint64_t` arithmetic is
modelled as `Nat` with explicit reduction modulo `2^64` exactly where the
source performs wrapping additions or subtractions, header structures
are Lean structures whose fields are the `uint64_t` fields of the
corresponding packed C structs, and the external cryptographic
primitives (`RSAVerifyBinary_f`, `RSAVerifyBinaryWithDigest_f`,
`DigestBuf`, `RSAPublicKeyFromBuf`, the algorithm tables) are abstracted
as oracle functions bundled in a `CryptoLib` record: for one
verification call over one buffer, the behaviour of the C functions is a
function of the header fields and of these oracles.

Each verifier additionally returns ghost Boolean flags recording whether
the RSA primitive (inside `VerifyData`) or the SHA-512 primitive
(`DigestBuf`) was invoked during the call; the flags do not influence
the returned code and merely instrument the control flow.
-/

namespace Vboot

/-- `2^64`, the modulus of `uint64_t` arithmetic. -/
def U64MOD : Nat := 2 ^ 64

/-- Wrapping `uint64_t` addition. -/
def add64 (a b : Nat) : Nat := (a + b) % U64MOD

/-- Wrapping `uint64_t` subtraction, `(uint64_t)a - (uint64_t)b`. -/
def sub64 (a b : Nat) : Nat := (a + (U64MOD - b % U64MOD)) % U64MOD

/-- `2^32`: the `(int)` cast the source applies to `key_size` keeps only
the low 32 bits, so two values compare equal as `int` iff they agree
modulo `2^32`. -/
def U32MOD : Nat := 2 ^ 32

/-- `OffsetOf(base, ptr)` from the source: the pointer difference
computed as unsigned 64-bit subtraction, with no check that
`ptr >= base`. -/
def OffsetOf (base ptr : Nat) : Nat := sub64 ptr base

/-- `VbSignature` header: three `uint64_t` fields. -/
structure VbSignature where
  sig_offset : Nat
  sig_size : Nat
  data_size : Nat
  deriving DecidableEq

/-- `VbPublicKey` header: four `uint64_t` fields. -/
structure VbPublicKey where
  key_offset : Nat
  key_size : Nat
  algorithm : Nat
  key_version : Nat
  deriving DecidableEq

/-- Modelled from the spec: `sizeof(VbSignature)` — the struct layout
header (`vboot_struct.h`) is not under `src/`; per spec §3 the signature
header is three packed unsigned 64-bit fields. -/
def sizeofVbSignature : Nat := 24

/-- Modelled from the spec: `sizeof(VbPublicKey)` — four packed unsigned
64-bit fields per spec §3. -/
def sizeofVbPublicKey : Nat := 32

/-- `VbKeyBlockHeader`.  `magic` is the list of its 8 magic bytes. -/
structure VbKeyBlockHeader where
  magic : List Nat
  header_version_major : Nat
  header_version_minor : Nat
  key_block_size : Nat
  key_block_signature : VbSignature
  key_block_checksum : VbSignature
  data_key : VbPublicKey
  deriving DecidableEq

/-- `VbFirmwarePreambleHeader`. -/
structure VbFirmwarePreambleHeader where
  header_version_major : Nat
  header_version_minor : Nat
  preamble_size : Nat
  firmware_version : Nat
  kernel_subkey : VbPublicKey
  body_signature : VbSignature
  preamble_signature : VbSignature
  deriving DecidableEq

/-- `VbKernelPreambleHeader`. -/
structure VbKernelPreambleHeader where
  header_version_major : Nat
  header_version_minor : Nat
  preamble_size : Nat
  kernel_version : Nat
  body_load_address : Nat
  bootloader_address : Nat
  bootloader_size : Nat
  body_signature : VbSignature
  preamble_signature : VbSignature
  deriving DecidableEq

/-- Modelled from the spec: byte offset of `key_block_signature` inside
`VbKeyBlockHeader` (magic 8 bytes, then three u64 fields per §3's
little-endian u64 default and packed layout of §6). -/
def kbSignatureOff : Nat := 32

/-- Modelled from the spec: byte offset of `key_block_checksum` inside
`VbKeyBlockHeader`. -/
def kbChecksumOff : Nat := 56

/-- Modelled from the spec: byte offset of `data_key` inside
`VbKeyBlockHeader`. -/
def kbDataKeyOff : Nat := 80

/-- Modelled from the spec: `sizeof(VbKeyBlockHeader)`. -/
def sizeofVbKeyBlockHeader : Nat := 112

/-- Modelled from the spec: byte offset of `kernel_subkey` inside
`VbFirmwarePreambleHeader`. -/
def fwKernelSubkeyOff : Nat := 32

/-- Modelled from the spec: byte offset of `body_signature` inside
`VbFirmwarePreambleHeader`. -/
def fwBodySigOff : Nat := 64

/-- Modelled from the spec: byte offset of `preamble_signature` inside
`VbFirmwarePreambleHeader`. -/
def fwPreambleSigOff : Nat := 88

/-- Modelled from the spec: `sizeof(VbFirmwarePreambleHeader)`. -/
def sizeofVbFirmwarePreambleHeader : Nat := 112

/-- Modelled from the spec: byte offset of `body_signature` inside
`VbKernelPreambleHeader`. -/
def knBodySigOff : Nat := 56

/-- Modelled from the spec: byte offset of `preamble_signature` inside
`VbKernelPreambleHeader`. -/
def knPreambleSigOff : Nat := 80

/-- Modelled from the spec: `sizeof(VbKernelPreambleHeader)`. -/
def sizeofVbKernelPreambleHeader : Nat := 104

/-- The 8 magic bytes, ASCII `CHROMEOS` (spec §6). -/
def KEY_BLOCK_MAGIC : List Nat := [67, 72, 82, 79, 77, 69, 79, 83]

/-- Modelled from the spec: the key-block major version constant is not
under `src/`; its exact value is immaterial to every claim. -/
def KEY_BLOCK_HEADER_VERSION_MAJOR : Nat := 2

/-- Modelled from the spec: firmware preamble major version constant. -/
def FIRMWARE_PREAMBLE_HEADER_VERSION_MAJOR : Nat := 1

/-- Modelled from the spec: kernel preamble major version constant. -/
def KERNEL_PREAMBLE_HEADER_VERSION_MAJOR : Nat := 1

/-- Modelled from the spec: the algorithm table enumerates
RSA-1024/2048/4096/8192 × SHA-1/256/512 (spec §6), so the sentinel
`kNumAlgorithms` is 12. -/
def kNumAlgorithms : Nat := 12

/-- SHA-512 digest length in bytes. -/
def SHA512_DIGEST_SIZE : Nat := 64

/- Return codes, in the order of the `kVbootErrors` table. -/

/-- `VBOOT_SUCCESS`. -/
def VBOOT_SUCCESS : Nat := 0

/-- `VBOOT_KEY_BLOCK_INVALID`. -/
def VBOOT_KEY_BLOCK_INVALID : Nat := 1

/-- `VBOOT_KEY_BLOCK_SIGNATURE`. -/
def VBOOT_KEY_BLOCK_SIGNATURE : Nat := 2

/-- `VBOOT_KEY_BLOCK_HASH`. -/
def VBOOT_KEY_BLOCK_HASH : Nat := 3

/-- `VBOOT_PUBLIC_KEY_INVALID`. -/
def VBOOT_PUBLIC_KEY_INVALID : Nat := 4

/-- `VBOOT_PREAMBLE_INVALID`. -/
def VBOOT_PREAMBLE_INVALID : Nat := 5

/-- `VBOOT_PREAMBLE_SIGNATURE`. -/
def VBOOT_PREAMBLE_SIGNATURE : Nat := 6

/-- `VerifyMemberInside` from the source, line for line.  All
comparisons are on `uint64_t` values; the additions wrap modulo `2^64`
exactly as the C `+` on `uint64_t` does, and `end` is accumulated by
`end += member_data_offset` before the last two checks. -/
def VerifyMemberInside (parent parent_size member member_size
    member_data_offset member_data_size : Nat) : Nat :=
  if parent_size < OffsetOf parent member then 1
  else if parent_size < add64 (OffsetOf parent member) member_size then 1
  else if parent_size <
      add64 (OffsetOf parent member) member_data_offset then 1
  else if parent_size <
      add64 (add64 (OffsetOf parent member) member_data_offset)
        member_data_size then 1
  else 0

/-- `VerifyPublicKeyInside`: the key header sits at offset `keyOff` from
the parent base (the source passes the field's address; with the parent
base normalised to 0 the member address is the field offset). -/
def VerifyPublicKeyInside (parent parent_size keyOff : Nat)
    (key : VbPublicKey) : Nat :=
  VerifyMemberInside parent parent_size (parent + keyOff) sizeofVbPublicKey
    key.key_offset key.key_size

/-- `VerifySignatureInside`. -/
def VerifySignatureInside (parent parent_size sigOff : Nat)
    (sig : VbSignature) : Nat :=
  VerifyMemberInside parent parent_size (parent + sigOff) sizeofVbSignature
    sig.sig_offset sig.sig_size

/-- The working RSA key produced by `PublicKeyToRSA`; only its
`algorithm` field is read by the verifier core. -/
structure RSAPublicKey where
  algorithm : Nat
  deriving DecidableEq

/-- Oracle bundle abstracting the external cryptographic library and the
bytes of the one buffer under verification.  `sigBytes pos len` is the
`len` bytes of the buffer starting at byte offset `pos` from the object
base; `digestBuf n` is `DigestBuf(base, n, SHA512)`, the SHA-512 digest
of the first `n` buffer bytes; `rsaVerifyBinary key dataSize pos alg`
is `RSAVerifyBinary_f(NULL, key, base, dataSize, base + pos, alg)`. -/
structure CryptoLib where
  siglen_map : Nat → Nat
  rsaProcessedKeySize : Nat → Nat
  rsaKeyFromBuf : VbPublicKey → Option Unit
  rsaVerifyBinary : RSAPublicKey → Nat → Nat → Nat → Bool
  rsaVerifyDigest : RSAPublicKey → List Nat → Nat → Nat → Bool
  digestBuf : Nat → List Nat
  sigBytes : Nat → Nat → List Nat

/-- `PublicKeyToRSA` from the source: reject an algorithm at or past the
sentinel, reject a key size whose comparison against the processed-key
length for the algorithm fails, then build the key from the key bytes
and stamp the algorithm onto it.  The source compares
`RSAProcessedKeySize((int)key->algorithm) != (int)key->key_size`: the
`uint64_t` `key_size` is truncated to a 32-bit `int` before the
comparison, so the two sides are compared modulo `2^32` (the algorithm
cast is the identity here, since the sentinel check already bounds the
algorithm below 12). -/
def PublicKeyToRSA (key : VbPublicKey) (lib : CryptoLib) :
    Option RSAPublicKey :=
  if kNumAlgorithms ≤ key.algorithm then none
  else if lib.rsaProcessedKeySize key.algorithm % U32MOD ≠
      key.key_size % U32MOD then none
  else
    match lib.rsaKeyFromBuf key with
    | none => none
    | some _ => some ⟨key.algorithm⟩

/-- `VerifyData` from the source.  `sigAddr` is the byte offset of the
`VbSignature` header from the data base (0 for the verifiers here, plus
the field offset); the signature payload handed to the RSA primitive
sits at `sigAddr + sig.sig_offset`.  The second component records
whether the RSA primitive was invoked. -/
def VerifyData (size : Nat) (sigAddr : Nat) (sig : VbSignature)
    (key : RSAPublicKey) (lib : CryptoLib) : Nat × Bool :=
  if sig.sig_size ≠ lib.siglen_map key.algorithm then (1, false)
  else if size < sig.data_size then (1, false)
  else if lib.rsaVerifyBinary key sig.data_size (add64 sigAddr sig.sig_offset)
      key.algorithm then (0, true)
  else (1, true)

/-- `VerifyDigest` from the source: checks only `sig_size` against the
algorithm table, then hands the caller-supplied digest and the signature
payload to the RSA-over-digest primitive.  `data_size` is never read. -/
def VerifyDigest (digest : List Nat) (sigAddr : Nat) (sig : VbSignature)
    (key : RSAPublicKey) (lib : CryptoLib) : Nat :=
  if sig.sig_size ≠ lib.siglen_map key.algorithm then 1
  else if lib.rsaVerifyDigest key digest (add64 sigAddr sig.sig_offset)
      key.algorithm then 0
  else 1

/-- `PublicKeyCopy` from the source.  `destPayload` / `srcPayload` are
the byte regions at `GetPublicKeyData(dest)` / `GetPublicKeyDataC(src)`;
`Memcpy` overwrites the first `src.key_size` bytes of the destination
region.  Returns (return value, dest header, dest payload region). -/
def PublicKeyCopy (dest : VbPublicKey) (destPayload : List Nat)
    (src : VbPublicKey) (srcPayload : List Nat) :
    Nat × VbPublicKey × List Nat :=
  if dest.key_size < src.key_size then (1, dest, destPayload)
  else (0,
    { dest with
        key_size := src.key_size
        algorithm := src.algorithm
        key_version := src.key_version },
    srcPayload.take src.key_size ++ destPayload.drop src.key_size)

/-- Common tail of `KeyBlockVerify` (source lines 239-256): the
signed-enough check and the two data-key containment checks, `ds` being
the selected signature's `data_size`. -/
def KeyBlockVerifyTail (block : VbKeyBlockHeader) (ds : Nat) : Nat :=
  if ds < sizeofVbKeyBlockHeader then VBOOT_KEY_BLOCK_INVALID
  else if VerifyPublicKeyInside 0 block.key_block_size kbDataKeyOff
      block.data_key ≠ 0 then VBOOT_KEY_BLOCK_INVALID
  else if VerifyPublicKeyInside 0 ds kbDataKeyOff block.data_key ≠ 0 then
    VBOOT_KEY_BLOCK_INVALID
  else VBOOT_SUCCESS

/-- `KeyBlockVerify` from the source.  The result is
(return code, RSA primitive invoked, SHA-512 primitive invoked). -/
def KeyBlockVerify (block : VbKeyBlockHeader) (size : Nat)
    (okey : Option VbPublicKey) (lib : CryptoLib) : Nat × Bool × Bool :=
  if block.magic ≠ KEY_BLOCK_MAGIC then
    (VBOOT_KEY_BLOCK_INVALID, false, false)
  else if block.header_version_major ≠ KEY_BLOCK_HEADER_VERSION_MAJOR then
    (VBOOT_KEY_BLOCK_INVALID, false, false)
  else if size < block.key_block_size then
    (VBOOT_KEY_BLOCK_INVALID, false, false)
  else
    match okey with
    | some key =>
      if VerifySignatureInside 0 block.key_block_size kbSignatureOff
          block.key_block_signature ≠ 0 then
        (VBOOT_KEY_BLOCK_INVALID, false, false)
      else
        match PublicKeyToRSA key lib with
        | none => (VBOOT_PUBLIC_KEY_INVALID, false, false)
        | some rsa =>
          if block.key_block_size < block.key_block_signature.data_size then
            (VBOOT_KEY_BLOCK_INVALID, false, false)
          else if (VerifyData size kbSignatureOff block.key_block_signature
              rsa lib).1 ≠ 0 then
            (VBOOT_KEY_BLOCK_SIGNATURE,
             (VerifyData size kbSignatureOff block.key_block_signature
               rsa lib).2, false)
          else
            (KeyBlockVerifyTail block block.key_block_signature.data_size,
             (VerifyData size kbSignatureOff block.key_block_signature
               rsa lib).2, false)
    | none =>
      if VerifySignatureInside 0 block.key_block_size kbChecksumOff
          block.key_block_checksum ≠ 0 then
        (VBOOT_KEY_BLOCK_INVALID, false, false)
      else if block.key_block_checksum.sig_size ≠ SHA512_DIGEST_SIZE then
        (VBOOT_KEY_BLOCK_INVALID, false, false)
      else if lib.digestBuf block.key_block_checksum.data_size ≠
          lib.sigBytes (add64 kbChecksumOff block.key_block_checksum.sig_offset)
            SHA512_DIGEST_SIZE then
        (VBOOT_KEY_BLOCK_HASH, false, true)
      else
        (KeyBlockVerifyTail block block.key_block_checksum.data_size,
         false, true)

/-- `VerifyFirmwarePreamble` from the source.  The result is
(return code, RSA primitive invoked). -/
def VerifyFirmwarePreamble (p : VbFirmwarePreambleHeader) (size : Nat)
    (key : RSAPublicKey) (lib : CryptoLib) : Nat × Bool :=
  if p.header_version_major ≠ FIRMWARE_PREAMBLE_HEADER_VERSION_MAJOR then
    (VBOOT_PREAMBLE_INVALID, false)
  else if size < p.preamble_size then (VBOOT_PREAMBLE_INVALID, false)
  else if VerifySignatureInside 0 p.preamble_size fwPreambleSigOff
      p.preamble_signature ≠ 0 then (VBOOT_PREAMBLE_INVALID, false)
  else if p.preamble_size < p.preamble_signature.data_size then
    (VBOOT_PREAMBLE_INVALID, false)
  else if (VerifyData size fwPreambleSigOff p.preamble_signature
      key lib).1 ≠ 0 then
    (VBOOT_PREAMBLE_SIGNATURE,
     (VerifyData size fwPreambleSigOff p.preamble_signature key lib).2)
  else if p.preamble_signature.data_size < sizeofVbFirmwarePreambleHeader then
    (VBOOT_PREAMBLE_INVALID,
     (VerifyData size fwPreambleSigOff p.preamble_signature key lib).2)
  else if VerifySignatureInside 0 p.preamble_size fwBodySigOff
      p.body_signature ≠ 0 then
    (VBOOT_PREAMBLE_INVALID,
     (VerifyData size fwPreambleSigOff p.preamble_signature key lib).2)
  else if VerifyPublicKeyInside 0 p.preamble_size fwKernelSubkeyOff
      p.kernel_subkey ≠ 0 then
    (VBOOT_PREAMBLE_INVALID,
     (VerifyData size fwPreambleSigOff p.preamble_signature key lib).2)
  else
    (VBOOT_SUCCESS,
     (VerifyData size fwPreambleSigOff p.preamble_signature key lib).2)

/-- `VerifyKernelPreamble` from the source: like the firmware preamble
verifier but with the kernel constants, no `preamble_size ≥ data_size`
check and no subkey check. -/
def VerifyKernelPreamble (p : VbKernelPreambleHeader) (size : Nat)
    (key : RSAPublicKey) (lib : CryptoLib) : Nat × Bool :=
  if p.header_version_major ≠ KERNEL_PREAMBLE_HEADER_VERSION_MAJOR then
    (VBOOT_PREAMBLE_INVALID, false)
  else if size < p.preamble_size then (VBOOT_PREAMBLE_INVALID, false)
  else if VerifySignatureInside 0 p.preamble_size knPreambleSigOff
      p.preamble_signature ≠ 0 then (VBOOT_PREAMBLE_INVALID, false)
  else if (VerifyData size knPreambleSigOff p.preamble_signature
      key lib).1 ≠ 0 then
    (VBOOT_PREAMBLE_SIGNATURE,
     (VerifyData size knPreambleSigOff p.preamble_signature key lib).2)
  else if p.preamble_signature.data_size < sizeofVbKernelPreambleHeader then
    (VBOOT_PREAMBLE_INVALID,
     (VerifyData size knPreambleSigOff p.preamble_signature key lib).2)
  else if VerifySignatureInside 0 p.preamble_size knBodySigOff
      p.body_signature ≠ 0 then
    (VBOOT_PREAMBLE_INVALID,
     (VerifyData size knPreambleSigOff p.preamble_signature key lib).2)
  else
    (VBOOT_SUCCESS,
     (VerifyData size knPreambleSigOff p.preamble_signature key lib).2)

/-- The signature a `KeyBlockVerify` call selects: `key_block_signature`
in keyed mode, `key_block_checksum` in hash mode. -/
def selectedSig (block : VbKeyBlockHeader) (okey : Option VbPublicKey) :
    VbSignature :=
  match okey with
  | some _ => block.key_block_signature
  | none => block.key_block_checksum

/-- The structural checks of `KeyBlockVerify` that precede its crypto
invocation in program order (magic, version, buffer size, member-inside
of the selected signature, and in keyed mode the key conversion, the
`data_size` sanity check and the two pre-RSA checks of `VerifyData`; in
hash mode the `sig_size` check). -/
def KeyBlockCryptoReached (b : VbKeyBlockHeader) (s : Nat)
    (okey : Option VbPublicKey) (lib : CryptoLib) : Prop :=
  b.magic = KEY_BLOCK_MAGIC ∧
  b.header_version_major = KEY_BLOCK_HEADER_VERSION_MAJOR ∧
  b.key_block_size ≤ s ∧
  match okey with
  | some k =>
      VerifySignatureInside 0 b.key_block_size kbSignatureOff
        b.key_block_signature = 0 ∧
      (PublicKeyToRSA k lib).isSome ∧
      b.key_block_signature.data_size ≤ b.key_block_size ∧
      b.key_block_signature.sig_size = lib.siglen_map k.algorithm ∧
      b.key_block_signature.data_size ≤ s
  | none =>
      VerifySignatureInside 0 b.key_block_size kbChecksumOff
        b.key_block_checksum = 0 ∧
      b.key_block_checksum.sig_size = SHA512_DIGEST_SIZE

/-- The structural checks of `VerifyFirmwarePreamble` that precede its
RSA invocation in program order. -/
def FwPreambleCryptoReached (p : VbFirmwarePreambleHeader) (s : Nat)
    (key : RSAPublicKey) (lib : CryptoLib) : Prop :=
  p.header_version_major = FIRMWARE_PREAMBLE_HEADER_VERSION_MAJOR ∧
  p.preamble_size ≤ s ∧
  VerifySignatureInside 0 p.preamble_size fwPreambleSigOff
    p.preamble_signature = 0 ∧
  p.preamble_signature.data_size ≤ p.preamble_size ∧
  p.preamble_signature.sig_size = lib.siglen_map key.algorithm ∧
  p.preamble_signature.data_size ≤ s

/-- The structural checks of `VerifyKernelPreamble` that precede its RSA
invocation in program order (the kernel path has no
`data_size ≤ preamble_size` check). -/
def KnPreambleCryptoReached (p : VbKernelPreambleHeader) (s : Nat)
    (key : RSAPublicKey) (lib : CryptoLib) : Prop :=
  p.header_version_major = KERNEL_PREAMBLE_HEADER_VERSION_MAJOR ∧
  p.preamble_size ≤ s ∧
  VerifySignatureInside 0 p.preamble_size knPreambleSigOff
    p.preamble_signature = 0 ∧
  p.preamble_signature.sig_size = lib.siglen_map key.algorithm ∧
  p.preamble_signature.data_size ≤ s

/-! Concrete instances used to evaluate the embedded code on explicit
inputs. -/

/-- A concrete oracle bundle: every signature length is 40, processed
keys are 64 bytes long, key construction succeeds, RSA verification
succeeds, and the SHA-512 of any leading segment coincides with the stored
64-byte checksum payload (both all-zero). -/
def lib0 : CryptoLib where
  siglen_map := fun _ => 40
  rsaProcessedKeySize := fun _ => 64
  rsaKeyFromBuf := fun _ => some ()
  rsaVerifyBinary := fun _ _ _ _ => true
  rsaVerifyDigest := fun _ _ _ _ => true
  digestBuf := fun _ => List.replicate 64 0
  sigBytes := fun _ _ => List.replicate 64 0

/-- Like `lib0` but the computed SHA-512 digest never matches the stored
checksum payload. -/
def libMismatch : CryptoLib where
  siglen_map := fun _ => 40
  rsaProcessedKeySize := fun _ => 64
  rsaKeyFromBuf := fun _ => some ()
  rsaVerifyBinary := fun _ _ _ _ => true
  rsaVerifyDigest := fun _ _ _ _ => true
  digestBuf := fun _ => List.replicate 64 1
  sigBytes := fun _ _ => List.replicate 64 0

/-- A concrete RSA key value. -/
def rsa0 : RSAPublicKey := ⟨0⟩

/-- A well-formed 200-byte key block accepted by `KeyBlockVerify` in
hash mode under `lib0`. -/
def KB0 : VbKeyBlockHeader where
  magic := KEY_BLOCK_MAGIC
  header_version_major := KEY_BLOCK_HEADER_VERSION_MAJOR
  header_version_minor := 0
  key_block_size := 200
  key_block_signature := ⟨0, 40, 150⟩
  key_block_checksum := ⟨70, 64, 120⟩
  data_key := ⟨35, 5, 0, 0⟩

/-- `KB0` with `key_block_checksum.data_size = 4`: every pre-hash
structural check passes, the digest matches, and the verifier then
fails the signed-enough check. -/
def KB2 : VbKeyBlockHeader where
  magic := KEY_BLOCK_MAGIC
  header_version_major := KEY_BLOCK_HEADER_VERSION_MAJOR
  header_version_minor := 0
  key_block_size := 200
  key_block_signature := ⟨0, 40, 150⟩
  key_block_checksum := ⟨70, 64, 4⟩
  data_key := ⟨35, 5, 0, 0⟩

/-- `KB0` with a `data_key.key_offset` of `2^64 - 80`: the wrapping
bounds check accepts it although the payload interval is far outside the
block. -/
def KB3 : VbKeyBlockHeader where
  magic := KEY_BLOCK_MAGIC
  header_version_major := KEY_BLOCK_HEADER_VERSION_MAJOR
  header_version_minor := 0
  key_block_size := 200
  key_block_signature := ⟨0, 40, 150⟩
  key_block_checksum := ⟨70, 64, 120⟩
  data_key := ⟨U64MOD - 80, 10, 0, 0⟩

/-- A kernel preamble whose `preamble_signature.data_size` (250) exceeds
its `preamble_size` (150) yet is accepted when verified with a 300-byte
buffer. -/
def KP1 : VbKernelPreambleHeader where
  header_version_major := KERNEL_PREAMBLE_HEADER_VERSION_MAJOR
  header_version_minor := 0
  preamble_size := 150
  kernel_version := 1
  body_load_address := 0
  bootloader_address := 0
  bootloader_size := 0
  body_signature := ⟨0, 0, 0⟩
  preamble_signature := ⟨20, 40, 250⟩

/-- A firmware preamble accepted under `lib0` whose `kernel_subkey`
payload lies entirely beyond the signed first `data_size` bytes. -/
def FW1 : VbFirmwarePreambleHeader where
  header_version_major := FIRMWARE_PREAMBLE_HEADER_VERSION_MAJOR
  header_version_minor := 0
  preamble_size := 300
  firmware_version := 1
  kernel_subkey := ⟨200, 8, 0, 0⟩
  body_signature := ⟨0, 0, 0⟩
  preamble_signature := ⟨120, 40, 112⟩

/-! Helper lemmas: characterizations of the embedded checks. -/

theorem verifyMemberInside_eq_zero_iff (p ps m ms po sz : Nat) :
    VerifyMemberInside p ps m ms po sz = 0 ↔
      OffsetOf p m ≤ ps ∧ add64 (OffsetOf p m) ms ≤ ps ∧
      add64 (OffsetOf p m) po ≤ ps ∧
      add64 (add64 (OffsetOf p m) po) sz ≤ ps := by
  unfold VerifyMemberInside
  split_ifs <;> simp_all

theorem verifyData_fst_eq_zero_iff (s a : Nat) (sig : VbSignature)
    (key : RSAPublicKey) (lib : CryptoLib) :
    (VerifyData s a sig key lib).1 = 0 ↔
      sig.sig_size = lib.siglen_map key.algorithm ∧ sig.data_size ≤ s ∧
      lib.rsaVerifyBinary key sig.data_size (add64 a sig.sig_offset)
        key.algorithm = true := by
  unfold VerifyData
  split_ifs <;> simp_all

theorem verifyData_snd_eq_true_iff (s a : Nat) (sig : VbSignature)
    (key : RSAPublicKey) (lib : CryptoLib) :
    (VerifyData s a sig key lib).2 = true ↔
      sig.sig_size = lib.siglen_map key.algorithm ∧ sig.data_size ≤ s := by
  unfold VerifyData
  split_ifs <;> simp_all

theorem keyBlockVerifyTail_eq_success_iff (b : VbKeyBlockHeader) (ds : Nat) :
    KeyBlockVerifyTail b ds = VBOOT_SUCCESS ↔
      sizeofVbKeyBlockHeader ≤ ds ∧
      VerifyPublicKeyInside 0 b.key_block_size kbDataKeyOff b.data_key = 0 ∧
      VerifyPublicKeyInside 0 ds kbDataKeyOff b.data_key = 0 := by
  unfold KeyBlockVerifyTail VBOOT_SUCCESS VBOOT_KEY_BLOCK_INVALID
  split_ifs <;> simp_all

theorem publicKeyToRSA_eq_some_iff (k : VbPublicKey) (lib : CryptoLib)
    (rsa : RSAPublicKey) :
    PublicKeyToRSA k lib = some rsa ↔
      k.algorithm < kNumAlgorithms ∧
      lib.rsaProcessedKeySize k.algorithm % U32MOD = k.key_size % U32MOD ∧
      (lib.rsaKeyFromBuf k).isSome ∧ rsa = ⟨k.algorithm⟩ := by
  unfold PublicKeyToRSA
  split_ifs with h1 h2
  · constructor
    · intro h; simp at h
    · rintro ⟨hlt, -, -, -⟩; omega
  · constructor
    · intro h; simp at h
    · rintro ⟨-, hk, -, -⟩; exact h2 hk
  · push_neg at h2
    cases hb : lib.rsaKeyFromBuf k with
    | none => simp
    | some u =>
      simp only [Option.isSome_some, Option.some.injEq]
      constructor
      · intro h
        exact ⟨by omega, h2, trivial, h.symm⟩
      · rintro ⟨-, -, -, h⟩
        exact h.symm

theorem keyBlockVerify_hash_success_iff (b : VbKeyBlockHeader) (s : Nat)
    (lib : CryptoLib) :
    (KeyBlockVerify b s none lib).1 = VBOOT_SUCCESS ↔
      b.magic = KEY_BLOCK_MAGIC ∧
      b.header_version_major = KEY_BLOCK_HEADER_VERSION_MAJOR ∧
      b.key_block_size ≤ s ∧
      VerifySignatureInside 0 b.key_block_size kbChecksumOff
        b.key_block_checksum = 0 ∧
      b.key_block_checksum.sig_size = SHA512_DIGEST_SIZE ∧
      lib.digestBuf b.key_block_checksum.data_size =
        lib.sigBytes (add64 kbChecksumOff b.key_block_checksum.sig_offset)
          SHA512_DIGEST_SIZE ∧
      KeyBlockVerifyTail b b.key_block_checksum.data_size = VBOOT_SUCCESS := by
  simp only [KeyBlockVerify]
  split_ifs <;>
    simp_all [VBOOT_SUCCESS, VBOOT_KEY_BLOCK_INVALID, VBOOT_KEY_BLOCK_HASH]

theorem keyBlockVerify_keyed_success_iff (b : VbKeyBlockHeader) (s : Nat)
    (k : VbPublicKey) (lib : CryptoLib) :
    (KeyBlockVerify b s (some k) lib).1 = VBOOT_SUCCESS ↔
      b.magic = KEY_BLOCK_MAGIC ∧
      b.header_version_major = KEY_BLOCK_HEADER_VERSION_MAJOR ∧
      b.key_block_size ≤ s ∧
      VerifySignatureInside 0 b.key_block_size kbSignatureOff
        b.key_block_signature = 0 ∧
      (∃ rsa, PublicKeyToRSA k lib = some rsa ∧
        b.key_block_signature.data_size ≤ b.key_block_size ∧
        (VerifyData s kbSignatureOff b.key_block_signature rsa lib).1 = 0) ∧
      KeyBlockVerifyTail b b.key_block_signature.data_size =
        VBOOT_SUCCESS := by
  cases hr : PublicKeyToRSA k lib with
  | none =>
    simp only [KeyBlockVerify, hr]
    split_ifs <;>
      simp_all [VBOOT_SUCCESS, VBOOT_KEY_BLOCK_INVALID,
        VBOOT_PUBLIC_KEY_INVALID]
  | some rsa =>
    simp only [KeyBlockVerify, hr]
    split_ifs <;>
      simp_all [VBOOT_SUCCESS, VBOOT_KEY_BLOCK_INVALID,
        VBOOT_KEY_BLOCK_SIGNATURE]

theorem verifyFirmwarePreamble_success_iff (p : VbFirmwarePreambleHeader)
    (s : Nat) (key : RSAPublicKey) (lib : CryptoLib) :
    (VerifyFirmwarePreamble p s key lib).1 = VBOOT_SUCCESS ↔
      p.header_version_major = FIRMWARE_PREAMBLE_HEADER_VERSION_MAJOR ∧
      p.preamble_size ≤ s ∧
      VerifySignatureInside 0 p.preamble_size fwPreambleSigOff
        p.preamble_signature = 0 ∧
      p.preamble_signature.data_size ≤ p.preamble_size ∧
      (VerifyData s fwPreambleSigOff p.preamble_signature key lib).1 = 0 ∧
      sizeofVbFirmwarePreambleHeader ≤ p.preamble_signature.data_size ∧
      VerifySignatureInside 0 p.preamble_size fwBodySigOff
        p.body_signature = 0 ∧
      VerifyPublicKeyInside 0 p.preamble_size fwKernelSubkeyOff
        p.kernel_subkey = 0 := by
  simp only [VerifyFirmwarePreamble]
  split_ifs <;>
    simp_all [VBOOT_SUCCESS, VBOOT_PREAMBLE_INVALID,
      VBOOT_PREAMBLE_SIGNATURE]

theorem verifyKernelPreamble_success_iff (p : VbKernelPreambleHeader)
    (s : Nat) (key : RSAPublicKey) (lib : CryptoLib) :
    (VerifyKernelPreamble p s key lib).1 = VBOOT_SUCCESS ↔
      p.header_version_major = KERNEL_PREAMBLE_HEADER_VERSION_MAJOR ∧
      p.preamble_size ≤ s ∧
      VerifySignatureInside 0 p.preamble_size knPreambleSigOff
        p.preamble_signature = 0 ∧
      (VerifyData s knPreambleSigOff p.preamble_signature key lib).1 = 0 ∧
      sizeofVbKernelPreambleHeader ≤ p.preamble_signature.data_size ∧
      VerifySignatureInside 0 p.preamble_size knBodySigOff
        p.body_signature = 0 := by
  simp only [VerifyKernelPreamble]
  split_ifs <;>
    simp_all [VBOOT_SUCCESS, VBOOT_PREAMBLE_INVALID,
      VBOOT_PREAMBLE_SIGNATURE]

theorem keyBlockVerify_hash_rsa_flag (b : VbKeyBlockHeader) (s : Nat)
    (lib : CryptoLib) : (KeyBlockVerify b s none lib).2.1 = false := by
  simp only [KeyBlockVerify]
  split_ifs <;> rfl

theorem keyBlockVerify_keyed_sha_flag (b : VbKeyBlockHeader) (s : Nat)
    (k : VbPublicKey) (lib : CryptoLib) :
    (KeyBlockVerify b s (some k) lib).2.2 = false := by
  cases hr : PublicKeyToRSA k lib <;>
    simp only [KeyBlockVerify, hr] <;> split_ifs <;> rfl

theorem keyBlockVerify_hash_sha_flag_iff (b : VbKeyBlockHeader) (s : Nat)
    (lib : CryptoLib) :
    (KeyBlockVerify b s none lib).2.2 = true ↔
      b.magic = KEY_BLOCK_MAGIC ∧
      b.header_version_major = KEY_BLOCK_HEADER_VERSION_MAJOR ∧
      b.key_block_size ≤ s ∧
      VerifySignatureInside 0 b.key_block_size kbChecksumOff
        b.key_block_checksum = 0 ∧
      b.key_block_checksum.sig_size = SHA512_DIGEST_SIZE := by
  simp only [KeyBlockVerify]
  split_ifs <;> simp_all

theorem keyBlockVerify_keyed_rsa_flag_iff (b : VbKeyBlockHeader) (s : Nat)
    (k : VbPublicKey) (lib : CryptoLib) :
    (KeyBlockVerify b s (some k) lib).2.1 = true ↔
      b.magic = KEY_BLOCK_MAGIC ∧
      b.header_version_major = KEY_BLOCK_HEADER_VERSION_MAJOR ∧
      b.key_block_size ≤ s ∧
      VerifySignatureInside 0 b.key_block_size kbSignatureOff
        b.key_block_signature = 0 ∧
      (∃ rsa, PublicKeyToRSA k lib = some rsa ∧
        b.key_block_signature.data_size ≤ b.key_block_size ∧
        (VerifyData s kbSignatureOff b.key_block_signature rsa lib).2 =
          true) := by
  cases hr : PublicKeyToRSA k lib with
  | none =>
    simp only [KeyBlockVerify, hr]
    split_ifs <;> simp_all
  | some rsa =>
    simp only [KeyBlockVerify, hr]
    split_ifs <;> simp_all

theorem verifyFirmwarePreamble_flag_iff (p : VbFirmwarePreambleHeader)
    (s : Nat) (key : RSAPublicKey) (lib : CryptoLib) :
    (VerifyFirmwarePreamble p s key lib).2 = true ↔
      p.header_version_major = FIRMWARE_PREAMBLE_HEADER_VERSION_MAJOR ∧
      p.preamble_size ≤ s ∧
      VerifySignatureInside 0 p.preamble_size fwPreambleSigOff
        p.preamble_signature = 0 ∧
      p.preamble_signature.data_size ≤ p.preamble_size ∧
      (VerifyData s fwPreambleSigOff p.preamble_signature key lib).2 =
        true := by
  simp only [VerifyFirmwarePreamble]
  split_ifs <;> simp_all

theorem verifyKernelPreamble_flag_iff (p : VbKernelPreambleHeader)
    (s : Nat) (key : RSAPublicKey) (lib : CryptoLib) :
    (VerifyKernelPreamble p s key lib).2 = true ↔
      p.header_version_major = KERNEL_PREAMBLE_HEADER_VERSION_MAJOR ∧
      p.preamble_size ≤ s ∧
      VerifySignatureInside 0 p.preamble_size knPreambleSigOff
        p.preamble_signature = 0 ∧
      (VerifyData s knPreambleSigOff p.preamble_signature key lib).2 =
        true := by
  simp only [VerifyKernelPreamble]
  split_ifs <;> simp_all

/-! Claim theorems. -/

/-- C1, counterexample: `VerifyMemberInside` returns `inside` (0) on a
concrete input where `(member_base - parent_base) + payload_offset`
overflows `uint64` — parent at 0 of size 100, member at 50 with header
size 16, payload offset `2^64 - 50`, payload size 50 — although the
claim requires the overflowing addition to make the result `outside`
(and the exact-arithmetic condition 3 fails).  The wrapped sum
`50 + (2^64 - 50) ≡ 0 (mod 2^64)` slips under `parent_size`. -/
theorem memberInside_overflow_escape :
    VerifyMemberInside 0 100 50 16 (U64MOD - 50) 50 = 0 ∧
    ¬(50 + (U64MOD - 50) ≤ 100) := by
  constructor
  · decide
  · decide

/-- C1, amended: `VerifyMemberInside` returns `inside` (0) iff all four
containment conditions hold when the base-pointer subtraction and every
addition are computed modulo `2^64`; an addition that wraps past `2^64`
to a value at most `parent_size` is therefore accepted rather than
detected as overflow. -/
theorem memberInside_mod_characterization (p ps m ms po sz : Nat) :
    VerifyMemberInside p ps m ms po sz = 0 ↔
      sub64 m p ≤ ps ∧ add64 (sub64 m p) ms ≤ ps ∧
      add64 (sub64 m p) po ≤ ps ∧
      add64 (add64 (sub64 m p) po) sz ≤ ps :=
  verifyMemberInside_eq_zero_iff p ps m ms po sz

/-- C4: `VerifyKernelPreamble` omits the `preamble_size ≥
preamble_signature.data_size` check of the firmware path: the concrete
kernel preamble `KP1`, whose signature `data_size` (250) exceeds its
`preamble_size` (150) while staying within the caller-supplied buffer
length (300), passes the version, size, signature-inside,
signature-verification, signed-enough and body-signature-inside checks
and is accepted with `VBOOT_SUCCESS`. -/
theorem kernelPreamble_accepts_data_size_beyond_preamble :
    (VerifyKernelPreamble KP1 300 rsa0 lib0).1 = VBOOT_SUCCESS ∧
    KP1.preamble_size < KP1.preamble_signature.data_size ∧
    KP1.preamble_signature.data_size ≤ 300 := by
  refine ⟨by decide, by decide, by decide⟩

/-- C9: `VerifyDigest` never reads the signature's `data_size`: two
signatures agreeing on `sig_offset` and `sig_size` (hence on the payload
location in the shared buffer) but with arbitrary `data_size` values
produce identical results for every digest, key and oracle bundle; in
contrast `VerifyData` returns failure (1) whenever `data_size` exceeds
the buffer length. -/
theorem verifyDigest_independent_of_data_size :
    (∀ (lib : CryptoLib) (key : RSAPublicKey) (dg : List Nat) (a : Nat)
        (s1 s2 : VbSignature), s1.sig_offset = s2.sig_offset →
        s1.sig_size = s2.sig_size →
        VerifyDigest dg a s1 key lib = VerifyDigest dg a s2 key lib) ∧
    (∀ (lib : CryptoLib) (key : RSAPublicKey) (sig : VbSignature)
        (a sz : Nat), sz < sig.data_size →
        (VerifyData sz a sig key lib).1 = 1) := by
  constructor
  · intro lib key dg a s1 s2 ho hs
    unfold VerifyDigest
    rw [ho, hs]
  · intro lib key sig a sz h
    unfold VerifyData
    split_ifs <;> simp_all

/-- C9, witness: two concrete signatures differing only in `data_size`
(100 vs 999) give the same `VerifyDigest` result. -/
theorem verifyDigest_independent_of_data_size_witness :
    VerifyDigest [1, 2] 0 ⟨5, 40, 100⟩ rsa0 lib0 =
      VerifyDigest [1, 2] 0 ⟨5, 40, 999⟩ rsa0 lib0 :=
  verifyDigest_independent_of_data_size.1 lib0 rsa0 [1, 2] 0
    ⟨5, 40, 100⟩ ⟨5, 40, 999⟩ rfl rfl

/-- C10: `PublicKeyCopy` is atomic on error: when the destination
capacity is smaller than `src.key_size` it returns 1 leaving the
destination header and payload untouched; otherwise it returns 0, sets
`key_size`, `algorithm` and `key_version` from the source, leaves
`key_offset` unchanged, and overwrites exactly the first `src.key_size`
bytes of the destination payload region with the source payload. -/
theorem publicKeyCopy_atomic (d : VbPublicKey) (dp : List Nat)
    (s : VbPublicKey) (sp : List Nat) :
    (d.key_size < s.key_size → PublicKeyCopy d dp s sp = (1, d, dp)) ∧
    (s.key_size ≤ d.key_size →
      PublicKeyCopy d dp s sp =
        (0, ⟨d.key_offset, s.key_size, s.algorithm, s.key_version⟩,
         sp.take s.key_size ++ dp.drop s.key_size)) := by
  constructor
  · intro h
    unfold PublicKeyCopy
    rw [if_pos h]
  · intro h
    unfold PublicKeyCopy
    rw [if_neg (by omega)]

/-- C10, witness: a concrete copy of a 5-byte key into an 8-byte
destination region. -/
theorem publicKeyCopy_atomic_witness :
    PublicKeyCopy ⟨16, 8, 3, 7⟩ [10, 11, 12, 13, 14, 15, 16, 17]
        ⟨4, 5, 2, 9⟩ [20, 21, 22, 23, 24] =
      (0, ⟨16, 5, 2, 9⟩, [20, 21, 22, 23, 24, 15, 16, 17]) := by
  have h := (publicKeyCopy_atomic ⟨16, 8, 3, 7⟩
      [10, 11, 12, 13, 14, 15, 16, 17] ⟨4, 5, 2, 9⟩
      [20, 21, 22, 23, 24]).2 (by decide)
  rw [h]
  rfl

/-- C3, counterexample: the concrete key block `KB3` is accepted in hash
mode although its `data_key` payload interval
`[key_offset, key_offset + key_size) = [2^64-80, 2^64-70)` lies far
outside `[0, key_block_size) = [0, 200)`: the containment the claim
asserts fails, because the member-inside bounds check wraps modulo
`2^64`. -/
theorem keyBlock_accepts_wrapped_data_key :
    (KeyBlockVerify KB3 200 none lib0).1 = VBOOT_SUCCESS ∧
    ¬(KB3.data_key.key_offset + KB3.data_key.key_size ≤
        KB3.key_block_size) := by
  constructor
  · decide
  · decide

/-- C3, amended: for every key block accepted by `KeyBlockVerify`, in
either mode, the selected signature's `data_size` is at least
`sizeof(VbKeyBlockHeader)`, and the `data_key` sub-object passes the
(mod-`2^64`) member-inside bounds check both against
`[0, key_block_size)` and against the signed region `[0, data_size)` —
containment in the modular sense of the bounds predicate, not exact
interval containment. -/
theorem keyBlock_accepted_data_key_bounds (b : VbKeyBlockHeader) (s : Nat)
    (okey : Option VbPublicKey) (lib : CryptoLib)
    (h : (KeyBlockVerify b s okey lib).1 = VBOOT_SUCCESS) :
    sizeofVbKeyBlockHeader ≤ (selectedSig b okey).data_size ∧
    VerifyPublicKeyInside 0 b.key_block_size kbDataKeyOff b.data_key = 0 ∧
    VerifyPublicKeyInside 0 (selectedSig b okey).data_size kbDataKeyOff
      b.data_key = 0 := by
  cases okey with
  | none =>
    have hc := (keyBlockVerify_hash_success_iff b s lib).1 h
    have ht := (keyBlockVerifyTail_eq_success_iff b
      b.key_block_checksum.data_size).1 hc.2.2.2.2.2.2
    exact ⟨ht.1, ht.2.1, ht.2.2⟩
  | some k =>
    have hc := (keyBlockVerify_keyed_success_iff b s k lib).1 h
    have ht := (keyBlockVerifyTail_eq_success_iff b
      b.key_block_signature.data_size).1 hc.2.2.2.2.2
    exact ⟨ht.1, ht.2.1, ht.2.2⟩

/-- C3 (amended), witness: instantiation at the concrete accepted block
`KB0` in hash mode. -/
theorem keyBlock_accepted_data_key_bounds_witness :
    sizeofVbKeyBlockHeader ≤ (selectedSig KB0 none).data_size ∧
    VerifyPublicKeyInside 0 KB0.key_block_size kbDataKeyOff
      KB0.data_key = 0 ∧
    VerifyPublicKeyInside 0 (selectedSig KB0 none).data_size kbDataKeyOff
      KB0.data_key = 0 :=
  keyBlock_accepted_data_key_bounds KB0 200 none lib0 (by decide)

/-- C5: in hash mode, once the magic, major-version, buffer-size and
checksum-member-inside checks have passed, a checksum `sig_size`
different from `SHA512_DIGEST_SIZE` yields `VBOOT_KEY_BLOCK_INVALID`;
otherwise the SHA-512 primitive is invoked on exactly the first
`data_size` bytes of the block, and a mismatch with the stored checksum
payload yields `VBOOT_KEY_BLOCK_HASH`. -/
theorem keyBlock_hash_mode_checks (b : VbKeyBlockHeader) (s : Nat)
    (lib : CryptoLib)
    (hm : b.magic = KEY_BLOCK_MAGIC)
    (hv : b.header_version_major = KEY_BLOCK_HEADER_VERSION_MAJOR)
    (hs : b.key_block_size ≤ s)
    (hin : VerifySignatureInside 0 b.key_block_size kbChecksumOff
      b.key_block_checksum = 0) :
    (b.key_block_checksum.sig_size ≠ SHA512_DIGEST_SIZE →
      (KeyBlockVerify b s none lib).1 = VBOOT_KEY_BLOCK_INVALID) ∧
    (b.key_block_checksum.sig_size = SHA512_DIGEST_SIZE →
      (KeyBlockVerify b s none lib).2.2 = true ∧
      (lib.digestBuf b.key_block_checksum.data_size ≠
          lib.sigBytes (add64 kbChecksumOff b.key_block_checksum.sig_offset)
            SHA512_DIGEST_SIZE →
        (KeyBlockVerify b s none lib).1 = VBOOT_KEY_BLOCK_HASH)) := by
  have hns : ¬ s < b.key_block_size := Nat.not_lt.2 hs
  constructor
  · intro hss
    simp [KeyBlockVerify, hm, hv, hns, hin, hss, VBOOT_KEY_BLOCK_INVALID]
  · intro hss
    constructor
    · simp only [KeyBlockVerify, hm, hv, hns, hin, hss]
      simp only [ne_eq, not_true, if_false, ite_false, if_neg, not_false_iff]
      split_ifs <;> rfl
    · intro hd
      simp [KeyBlockVerify, hm, hv, hns, hin, hss, hd, VBOOT_KEY_BLOCK_HASH]

/-- C5, witness: the concrete block `KB0` under the mismatching digest
oracle `libMismatch` runs the SHA-512 primitive and returns
`VBOOT_KEY_BLOCK_HASH`. -/
theorem keyBlock_hash_mode_checks_witness :
    (KeyBlockVerify KB0 200 none libMismatch).2.2 = true ∧
    (KeyBlockVerify KB0 200 none libMismatch).1 = VBOOT_KEY_BLOCK_HASH := by
  have h := (keyBlock_hash_mode_checks KB0 200 libMismatch rfl rfl
    (by decide) (by decide)).2 rfl
  exact ⟨h.1, h.2 (by decide)⟩

/-- C6, counterexample: the `(int)` cast at the key-size comparison
defeats the exact check the claim states.  The root key
`⟨0, 2^32 + 64, 0, 0⟩` has `key_size = 2^32 + 64`, different from the
processed-public-key length 64 for its algorithm, yet `KB0` verifies to
`VBOOT_SUCCESS` with it rather than `VBOOT_PUBLIC_KEY_INVALID`: both
sides truncate to the same 32-bit value, so the conversion succeeds. -/
theorem keyBlock_keyed_truncated_key_size_escape :
    (KeyBlockVerify KB0 200 (some ⟨0, U32MOD + 64, 0, 0⟩) lib0).1 =
      VBOOT_SUCCESS ∧
    lib0.rsaProcessedKeySize 0 ≠ U32MOD + 64 := by
  constructor
  · decide
  · decide

/-- C6, amended: in keyed mode, after the magic, major-version,
buffer-size and signature-member-inside checks pass, a root key whose
`algorithm` is at or past `kNumAlgorithms`, or whose `key_size` differs
from the processed-public-key length for its algorithm *modulo `2^32`*
(the comparison the source performs after its `(int)` truncation of
`key_size`), makes `KeyBlockVerify` return
`VBOOT_PUBLIC_KEY_INVALID`. -/
theorem keyBlock_keyed_bad_root_key (b : VbKeyBlockHeader) (s : Nat)
    (k : VbPublicKey) (lib : CryptoLib)
    (hm : b.magic = KEY_BLOCK_MAGIC)
    (hv : b.header_version_major = KEY_BLOCK_HEADER_VERSION_MAJOR)
    (hs : b.key_block_size ≤ s)
    (hin : VerifySignatureInside 0 b.key_block_size kbSignatureOff
      b.key_block_signature = 0)
    (hbad : kNumAlgorithms ≤ k.algorithm ∨
      lib.rsaProcessedKeySize k.algorithm % U32MOD ≠
        k.key_size % U32MOD) :
    (KeyBlockVerify b s (some k) lib).1 = VBOOT_PUBLIC_KEY_INVALID := by
  have hnone : PublicKeyToRSA k lib = none := by
    unfold PublicKeyToRSA
    rcases hbad with h | h
    · rw [if_pos h]
    · by_cases h1 : kNumAlgorithms ≤ k.algorithm
      · rw [if_pos h1]
      · rw [if_neg h1, if_pos h]
  have hns : ¬ s < b.key_block_size := Nat.not_lt.2 hs
  simp [KeyBlockVerify, hm, hv, hns, hin, hnone, VBOOT_PUBLIC_KEY_INVALID]

/-- C6 (amended), witness: `KB0` verified against a root key whose
`algorithm` field equals the sentinel `kNumAlgorithms` (12). -/
theorem keyBlock_keyed_bad_root_key_witness :
    (KeyBlockVerify KB0 200 (some ⟨0, 64, 12, 0⟩) lib0).1 =
      VBOOT_PUBLIC_KEY_INVALID :=
  keyBlock_keyed_bad_root_key KB0 200 ⟨0, 64, 12, 0⟩ lib0 rfl rfl
    (by decide) (by decide) (Or.inl (by decide))

/-- C8: `VerifyFirmwarePreamble` bounds `kernel_subkey` and
`body_signature` only against the whole preamble: every accepted
preamble passes both member-inside checks with parent size
`preamble_size`, and the concrete accepted preamble `FW1` has its
`kernel_subkey` payload entirely beyond the signed first `data_size`
bytes, so no containment in the signed region is imposed. -/
theorem fwPreamble_bounds_against_whole_preamble :
    (∀ (p : VbFirmwarePreambleHeader) (s : Nat) (key : RSAPublicKey)
        (lib : CryptoLib),
        (VerifyFirmwarePreamble p s key lib).1 = VBOOT_SUCCESS →
        VerifySignatureInside 0 p.preamble_size fwBodySigOff
          p.body_signature = 0 ∧
        VerifyPublicKeyInside 0 p.preamble_size fwKernelSubkeyOff
          p.kernel_subkey = 0) ∧
    ((VerifyFirmwarePreamble FW1 300 rsa0 lib0).1 = VBOOT_SUCCESS ∧
      FW1.preamble_signature.data_size ≤
        fwKernelSubkeyOff + FW1.kernel_subkey.key_offset) := by
  constructor
  · intro p s key lib h
    have hc := (verifyFirmwarePreamble_success_iff p s key lib).1 h
    exact ⟨hc.2.2.2.2.2.2.1, hc.2.2.2.2.2.2.2⟩
  · exact ⟨by decide, by decide⟩

/-- C8, witness: instantiation of the universal part at the concrete
accepted preamble `FW1`. -/
theorem fwPreamble_bounds_witness :
    VerifySignatureInside 0 FW1.preamble_size fwBodySigOff
      FW1.body_signature = 0 ∧
    VerifyPublicKeyInside 0 FW1.preamble_size fwKernelSubkeyOff
      FW1.kernel_subkey = 0 :=
  fwPreamble_bounds_against_whole_preamble.1 FW1 300 rsa0 lib0 (by decide)

/-- C2, counterexample: on the concrete key block `KB2` every structural
check preceding the hash passes and the SHA-512 primitive runs (third
component `true`), yet the verifier then fails the signed-enough
structural check and returns `VBOOT_KEY_BLOCK_INVALID` — an input that
fails a structural check and still caused a crypto primitive to run. -/
theorem keyBlock_crypto_runs_before_late_structural_checks :
    KeyBlockVerify KB2 200 none lib0 =
      (VBOOT_KEY_BLOCK_INVALID, false, true) := by
  decide

/-- C2, amended: in each verifier the crypto primitive runs only after
every structural check that precedes it in program order has passed
(magic, version, buffer size, member-inside of the selected signature,
keyed-mode key conversion and `data_size` sanity, and the adapter's own
size checks); the signed-enough and sub-object containment checks,
however, run after the primitive, so an input may run crypto and still
be rejected as INVALID. -/
theorem crypto_only_after_early_checks :
    (∀ (b : VbKeyBlockHeader) (s : Nat) (okey : Option VbPublicKey)
        (lib : CryptoLib),
        ((KeyBlockVerify b s okey lib).2.1 = true ∨
          (KeyBlockVerify b s okey lib).2.2 = true) →
        KeyBlockCryptoReached b s okey lib) ∧
    (∀ (p : VbFirmwarePreambleHeader) (s : Nat) (key : RSAPublicKey)
        (lib : CryptoLib), (VerifyFirmwarePreamble p s key lib).2 = true →
        FwPreambleCryptoReached p s key lib) ∧
    (∀ (p : VbKernelPreambleHeader) (s : Nat) (key : RSAPublicKey)
        (lib : CryptoLib), (VerifyKernelPreamble p s key lib).2 = true →
        KnPreambleCryptoReached p s key lib) := by
  refine ⟨?_, ?_, ?_⟩
  · intro b s okey lib h
    cases okey with
    | none =>
      have h2 : (KeyBlockVerify b s none lib).2.2 = true := by
        rcases h with h | h
        · rw [keyBlockVerify_hash_rsa_flag] at h
          exact absurd h (by simp)
        · exact h
      have hc := (keyBlockVerify_hash_sha_flag_iff b s lib).1 h2
      exact ⟨hc.1, hc.2.1, hc.2.2.1, hc.2.2.2.1, hc.2.2.2.2⟩
    | some k =>
      have h1 : (KeyBlockVerify b s (some k) lib).2.1 = true := by
        rcases h with h | h
        · exact h
        · rw [keyBlockVerify_keyed_sha_flag] at h
          exact absurd h (by simp)
      have hc := (keyBlockVerify_keyed_rsa_flag_iff b s k lib).1 h1
      obtain ⟨hm, hv, hs, hin, rsa, hr, hds, hvd⟩ := hc
      have hrsa := (publicKeyToRSA_eq_some_iff k lib rsa).1 hr
      have hvd2 := (verifyData_snd_eq_true_iff s kbSignatureOff
        b.key_block_signature rsa lib).1 hvd
      refine ⟨hm, hv, hs, hin, ?_, hds, ?_, hvd2.2⟩
      · rw [hr]
        rfl
      · rw [hvd2.1, hrsa.2.2.2]
  · intro p s key lib h
    have hc := (verifyFirmwarePreamble_flag_iff p s key lib).1 h
    have hvd := (verifyData_snd_eq_true_iff s fwPreambleSigOff
      p.preamble_signature key lib).1 hc.2.2.2.2
    exact ⟨hc.1, hc.2.1, hc.2.2.1, hc.2.2.2.1, hvd.1, hvd.2⟩
  · intro p s key lib h
    have hc := (verifyKernelPreamble_flag_iff p s key lib).1 h
    have hvd := (verifyData_snd_eq_true_iff s knPreambleSigOff
      p.preamble_signature key lib).1 hc.2.2.2
    exact ⟨hc.1, hc.2.1, hc.2.2.1, hvd.1, hvd.2⟩

/-- C2 (amended), witness: instantiation at the concrete block `KB2`,
on which the SHA-512 primitive did run. -/
theorem crypto_only_after_early_checks_witness :
    KeyBlockCryptoReached KB2 200 none lib0 :=
  crypto_only_after_early_checks.1 KB2 200 none lib0 (Or.inr (by decide))

/-- C7: truncation monotonicity — for each of the three verifiers,
growing the declared buffer length while keeping the parsed bytes and
the key fixed never turns `VBOOT_SUCCESS` into a rejection, since the
length is only ever compared from below. -/
theorem verify_truncation_monotone :
    (∀ (b : VbKeyBlockHeader) (n m : Nat) (okey : Option VbPublicKey)
        (lib : CryptoLib), n ≤ m →
        (KeyBlockVerify b n okey lib).1 = VBOOT_SUCCESS →
        (KeyBlockVerify b m okey lib).1 = VBOOT_SUCCESS) ∧
    (∀ (p : VbFirmwarePreambleHeader) (n m : Nat) (key : RSAPublicKey)
        (lib : CryptoLib), n ≤ m →
        (VerifyFirmwarePreamble p n key lib).1 = VBOOT_SUCCESS →
        (VerifyFirmwarePreamble p m key lib).1 = VBOOT_SUCCESS) ∧
    (∀ (p : VbKernelPreambleHeader) (n m : Nat) (key : RSAPublicKey)
        (lib : CryptoLib), n ≤ m →
        (VerifyKernelPreamble p n key lib).1 = VBOOT_SUCCESS →
        (VerifyKernelPreamble p m key lib).1 = VBOOT_SUCCESS) := by
  refine ⟨?_, ?_, ?_⟩
  · intro b n m okey lib hnm h
    cases okey with
    | none =>
      rw [keyBlockVerify_hash_success_iff] at h ⊢
      obtain ⟨h1, h2, h3, h4, h5, h6, h7⟩ := h
      exact ⟨h1, h2, le_trans h3 hnm, h4, h5, h6, h7⟩
    | some k =>
      rw [keyBlockVerify_keyed_success_iff] at h ⊢
      obtain ⟨h1, h2, h3, h4, ⟨rsa, hr, hd1, hd2⟩, h6⟩ := h
      rw [verifyData_fst_eq_zero_iff] at hd2
      refine ⟨h1, h2, le_trans h3 hnm, h4, ⟨rsa, hr, hd1, ?_⟩, h6⟩
      rw [verifyData_fst_eq_zero_iff]
      exact ⟨hd2.1, le_trans hd2.2.1 hnm, hd2.2.2⟩
  · intro p n m key lib hnm h
    rw [verifyFirmwarePreamble_success_iff] at h ⊢
    obtain ⟨h1, h2, h3, h4, h5, h6, h7, h8⟩ := h
    rw [verifyData_fst_eq_zero_iff] at h5
    refine ⟨h1, le_trans h2 hnm, h3, h4, ?_, h6, h7, h8⟩
    rw [verifyData_fst_eq_zero_iff]
    exact ⟨h5.1, le_trans h5.2.1 hnm, h5.2.2⟩
  · intro p n m key lib hnm h
    rw [verifyKernelPreamble_success_iff] at h ⊢
    obtain ⟨h1, h2, h3, h4, h5, h6⟩ := h
    rw [verifyData_fst_eq_zero_iff] at h4
    refine ⟨h1, le_trans h2 hnm, h3, ?_, h5, h6⟩
    rw [verifyData_fst_eq_zero_iff]
    exact ⟨h4.1, le_trans h4.2.1 hnm, h4.2.2⟩

/-- C7, witness: the concrete block `KB0` is accepted at its exact size
200 and stays accepted at the larger declared length 300. -/
theorem verify_truncation_monotone_witness :
    200 ≤ 300 ∧ (KeyBlockVerify KB0 300 none lib0).1 = VBOOT_SUCCESS :=
  ⟨by decide,
   verify_truncation_monotone.1 KB0 200 300 none lib0 (by decide)
     (by decide)⟩

end Vboot
